import Mathlib

/-!
Verification of the Fulcrum-to-Google-Drive reconciliation engine
(`fulcrum_to_google_drive.py`), shallowly embedded in Lean 4.

Each definition models one Python function of the source file; line numbers
in the doc comments refer to `src/fulcrum_to_google_drive.py`.  External
collaborators (the Fulcrum API, the Google Drive API, the Slack channel)
are modelled as explicit oracle parameters, so every definition is a pure,
executable Lean function.
-/

namespace FulcrumExport

/-- Does the character list start with the given pattern? Helper for the
substring test below. -/
def charsStartWith : List Char → List Char → Bool
  | _, [] => true
  | [], _ :: _ => false
  | c :: cs, d :: ds => c == d && charsStartWith cs ds

/-- Does the pattern occur as a contiguous run inside the character list? -/
def charsContain (pat : List Char) : List Char → Bool
  | [] => pat.isEmpty
  | c :: cs => charsStartWith (c :: cs) pat || charsContain pat cs

/-- Python's `pat in s` substring test (used for `'png' in content_type`,
line 1150). -/
def strContains (s pat : String) : Bool :=
  charsContain pat.toList s.toList

/-- Extension choice of `download_photo_with_metadata` (lines 1149-1150) and
`download_photo_to_memory` (lines 1195-1196):
`ext = 'png' if 'png' in content_type else 'jpg'`. -/
def photoExt (content_type : String) : String :=
  if strContains content_type "png" then "png" else "jpg"

/-- Stored key of a photo, from `_process_single_photo` line 1565:
`filename = f"{photo_id}.{ext}"`. -/
def photoFilename (photo_id content_type : String) : String :=
  photo_id ++ "." ++ photoExt content_type

/-- Python's `'.' in filename` (line 1244). -/
def hasDot (s : String) : Bool :=
  s.toList.contains '.'

/-- Python's `filename.rsplit('.', 1)[0]` (line 1245): the filename with its
final dot and extension stripped; a dotless name is returned unchanged
(the caller only applies this to names containing a dot). -/
def stemOf (s : String) : String :=
  match s.toList.reverse.dropWhile (fun c => c ≠ '.') with
  | [] => s
  | _ :: rest => String.mk rest.reverse

/-- Model of `identify_orphaned_photos` (lines 232-252): filenames in the Drive
listing whose derived photo id is not a valid photo id of the current
metadata batch; names without a dot are skipped by the `continue`
branch (lines 246-247).  The Drive listing and the valid-id set are
modelled as lists. -/
def identify_orphaned_photos (existing_in_drive valid_photo_ids : List String) :
    List String :=
  if existing_in_drive.isEmpty then []
  else
    existing_in_drive.filter (fun filename =>
      if hasDot filename then !(valid_photo_ids.contains (stemOf filename))
      else false)

/-- Backlog filter of `export_form` (lines 1372-1382): a photo id is
downloaded only if neither `{id}.jpg` nor `{id}.png` is already in the
Drive photos listing and the id is not in the progress file's
uploaded-photos set. -/
def photosToDownload (all_photos existing_photos uploaded_photos : List String) :
    List String :=
  all_photos.filter (fun pid =>
    !(existing_photos.contains (pid ++ ".jpg")
      || existing_photos.contains (pid ++ ".png")
      || uploaded_photos.contains pid))

lemma mem_identify_orphaned (existing valid : List String) (f : String) :
    f ∈ identify_orphaned_photos existing valid ↔
      f ∈ existing ∧ hasDot f = true ∧ valid.contains (stemOf f) = false := by
  unfold identify_orphaned_photos
  by_cases he : existing.isEmpty = true
  · rw [if_pos he]
    rw [List.isEmpty_iff] at he
    subst he
    simp
  · rw [if_neg he, List.mem_filter]
    cases hd : hasDot f <;> simp [hd]

lemma photoFilename_cases (pid ct : String) :
    (strContains ct "png" = true ∧ photoFilename pid ct = pid ++ ".png")
    ∨ (strContains ct "png" = false ∧ photoFilename pid ct = pid ++ ".jpg") := by
  unfold photoFilename photoExt
  cases h : strContains ct "png"
  · refine Or.inr ⟨rfl, ?_⟩
    rw [if_neg (by simp), String.append_assoc]
    rfl
  · refine Or.inl ⟨rfl, ?_⟩
    rw [if_pos rfl, String.append_assoc]
    rfl

/-- C5: `identify_orphaned_photos` returns exactly the listed filenames whose
derived asset id (the name with its final dot-extension stripped) is absent
from the valid-id set, and on the listing `{A.jpg, B.jpg, C.png}` with valid
set `{A, C}` it returns exactly `{B.jpg}`. -/
theorem claim_C5_orphans :
    (∀ (existing valid : List String) (f : String),
      f ∈ identify_orphaned_photos existing valid ↔
        f ∈ existing ∧ hasDot f = true ∧ valid.contains (stemOf f) = false)
    ∧ identify_orphaned_photos ["A.jpg", "B.jpg", "C.png"] ["A", "C"] = ["B.jpg"] :=
  ⟨mem_identify_orphaned, by decide⟩

/-- C10: a filename containing no dot is never returned by
`identify_orphaned_photos`, hence never selected for deletion. -/
theorem claim_C10_dotless_never_orphaned
    (existing valid : List String) (f : String) (hf : hasDot f = false) :
    f ∉ identify_orphaned_photos existing valid := by
  intro hmem
  rw [mem_identify_orphaned] at hmem
  rw [hf] at hmem
  simp at hmem

/-- Witness for C10 at a concrete input. -/
theorem claim_C10_witness :
    hasDot "B" = false ∧ "B" ∉ identify_orphaned_photos ["B"] [] :=
  ⟨by decide, claim_C10_dotless_never_orphaned ["B"] [] "B" (by decide)⟩

/-- C9: the stored key is `photo_id.png` exactly when `png` occurs in the
metadata content type and `photo_id.jpg` otherwise, so it is always one of
the two deterministic keys; consequently, if the stored key is already in
the target listing, the backlog filter of `export_form` excludes the id. -/
theorem claim_C9_deterministic_key (pid ct : String) :
    (strContains ct "png" = true → photoFilename pid ct = pid ++ ".png")
    ∧ (strContains ct "png" = false → photoFilename pid ct = pid ++ ".jpg")
    ∧ (photoFilename pid ct = pid ++ ".jpg" ∨ photoFilename pid ct = pid ++ ".png")
    ∧ (∀ all existing uploaded : List String,
        existing.contains (photoFilename pid ct) = true →
        pid ∉ photosToDownload all existing uploaded) := by
  have hkey := photoFilename_cases pid ct
  refine ⟨?_, ?_, ?_, ?_⟩
  · intro h
    rcases hkey with ⟨_, hk⟩ | ⟨hc, _⟩
    · exact hk
    · rw [h] at hc; exact absurd hc (by simp)
  · intro h
    rcases hkey with ⟨hc, _⟩ | ⟨_, hk⟩
    · rw [h] at hc; exact absurd hc (by simp)
    · exact hk
  · rcases hkey with ⟨_, hk⟩ | ⟨_, hk⟩
    · exact Or.inr hk
    · exact Or.inl hk
  · intro all existing uploaded hmem hin
    rw [photosToDownload, List.mem_filter] at hin
    have h2 := hin.2
    rcases hkey with ⟨_, hk⟩ | ⟨_, hk⟩ <;> rw [hk] at hmem <;>
      rw [hmem] at h2 <;> simp at h2

/-- Witness for C9 at a concrete input. -/
theorem claim_C9_witness :
    photoFilename "p" "image/png" = "p.png"
    ∧ photoFilename "p" "image/jpeg" = "p.jpg"
    ∧ "p" ∉ photosToDownload ["p"] ["p.jpg"] [] :=
  ⟨(claim_C9_deterministic_key "p" "image/png").1 (by decide),
   (claim_C9_deterministic_key "p" "image/jpeg").2.1 (by decide),
   (claim_C9_deterministic_key "p" "image/jpeg").2.2.2 ["p"] ["p.jpg"] [] (by decide)⟩

/-! ### Approval gate (`wait_for_slack_approval`, lines 194-230, and
`cleanup_deleted_photos`, lines 609-678) -/

/-- One Slack message as seen by the poll loop: whether it carries a
`bot_id`, its timestamp, and its text. -/
structure SlackMsg where
  bot_id : Bool
  ts : String
  text : String

/-- Python's `str.strip()`: drop leading and trailing whitespace
(line 214). -/
def strStrip (s : String) : String :=
  String.mk
    (((s.toList.dropWhile Char.isWhitespace).reverse.dropWhile
      Char.isWhitespace).reverse)

/-- Python's `str.lower()` (line 214), character-wise lowering. -/
def strLower (s : String) : String :=
  String.mk (s.toList.map Char.toLower)

/-- Possible results of `wait_for_slack_approval` (line 196). -/
inductive ApprovalResponse
  | approve
  | skip
  | endExport
  | timeout
deriving DecidableEq

/-- Classification of one polled message (lines 209-226): bot messages and
the original request message are ignored; the stripped, lower-cased text is
matched against the approve/skip/end vocabulary; anything else is ignored. -/
def check_message (message_ts : String) (msg : SlackMsg) : Option ApprovalResponse :=
  if msg.bot_id || msg.ts == message_ts then none
  else
    let text := strLower (strStrip msg.text)
    if text == "y" || text == "yes" then some .approve
    else if text == "s" || text == "skip" then some .skip
    else if text == "e" || text == "end" then some .endExport
    else none

/-- One poll iteration scans the fetched messages in order and resolves on
the first qualifying reply (lines 209-226). -/
def scan_messages (message_ts : String) (msgs : List SlackMsg) : Option ApprovalResponse :=
  msgs.findSome? (check_message message_ts)

/-- The poll loop of `wait_for_slack_approval` (lines 206-230), with time
made explicit: `polls` is the finite sequence of message batches fetched at
the successive poll instants inside the timeout window; exhausting it
without a qualifying reply is the timeout (line 230). -/
def poll_for_response (message_ts : String) : List (List SlackMsg) → ApprovalResponse
  | [] => .timeout
  | msgs :: rest =>
    match scan_messages message_ts msgs with
    | some r => r
    | none => poll_for_response message_ts rest

/-- Model of `wait_for_slack_approval` (lines 194-230): auto-approve when Slack is
not configured (lines 197-198), otherwise poll until a qualifying reply or
timeout. -/
def wait_for_slack_approval (slack_enabled : Bool) (message_ts : String)
    (polls : List (List SlackMsg)) : ApprovalResponse :=
  if slack_enabled then poll_for_response message_ts polls else .approve

/-- One entry of `self._skipped_forms` (lines 659 and 669):
`{"form": ..., "reason": ..., "photos": ...}`. -/
structure SkippedForm where
  form : String
  reason : String
  photos : Nat
deriving DecidableEq

/-- The action component of `cleanup_deleted_photos`'s return value
(line 612). -/
inductive CleanupAction
  | approved
  | skipped
  | ended
deriving DecidableEq

/-- Observable outcome of `cleanup_deleted_photos`: the returned deletion
count and action, the `_skipped_forms` records appended, and whether
`_export_cancelled` was set. -/
structure CleanupResult where
  deleted : Nat
  action : CleanupAction
  skipped_records : List SkippedForm
  export_cancelled : Bool
deriving DecidableEq

/-- Model of `cleanup_deleted_photos` (lines 609-678) given the already-computed
orphan list.  `delete_from_drive` abstracts `delete_photos_from_drive`
(lines 254-288), returning the number of objects actually deleted; `msg_ts`
is the result of sending the approval request (`None` models a failed
send, line 653). -/
def cleanup_deleted_photos (skip_deletions auto_delete : Bool)
    (pre_approved_forms : List String) (slack_enabled : Bool)
    (msg_ts : Option String) (polls : List (List SlackMsg))
    (delete_from_drive : List String → Nat)
    (orphaned_files : List String) (form_name : String) : CleanupResult :=
  if orphaned_files.isEmpty then ⟨0, .approved, [], false⟩
  else if skip_deletions then ⟨0, .skipped, [], false⟩
  else if auto_delete then ⟨delete_from_drive orphaned_files, .approved, [], false⟩
  else if pre_approved_forms.contains form_name then
    ⟨delete_from_drive orphaned_files, .approved, [], false⟩
  else if slack_enabled then
    match msg_ts with
    | none => ⟨delete_from_drive orphaned_files, .approved, [], false⟩
    | some ts =>
      match wait_for_slack_approval true ts polls with
      | .skip =>
        ⟨0, .skipped, [⟨form_name, "user requested", orphaned_files.length⟩], false⟩
      | .endExport => ⟨0, .ended, [], true⟩
      | .timeout =>
        ⟨0, .skipped, [⟨form_name, "no response", orphaned_files.length⟩], false⟩
      | .approve => ⟨delete_from_drive orphaned_files, .approved, [], false⟩
  else ⟨delete_from_drive orphaned_files, .approved, [], false⟩

lemma poll_all_none (ts : String) (polls : List (List SlackMsg))
    (h : ∀ msgs ∈ polls, scan_messages ts msgs = none) :
    poll_for_response ts polls = .timeout := by
  induction polls with
  | nil => rfl
  | cons msgs rest ih =>
    rw [poll_for_response, h msgs (List.mem_cons_self msgs rest)]
    exact ih fun ms hms => h ms (List.mem_cons_of_mem msgs hms)

lemma scan_single (ts : String) (m : SlackMsg) :
    scan_messages ts [m] = check_message ts m := by
  rw [scan_messages, List.findSome?]
  cases h : check_message ts m <;> rfl

lemma check_message_text (ts : String) (m : SlackMsg) (hbot : m.bot_id = false)
    (hts : m.ts ≠ ts) :
    check_message ts m =
      (let text := strLower (strStrip m.text)
       if text == "y" || text == "yes" then some .approve
       else if text == "s" || text == "skip" then some .skip
       else if text == "e" || text == "end" then some .endExport
       else none) := by
  rw [check_message, hbot]
  have : (m.ts == ts) = false := by
    simp [hts]
  rw [this]
  rfl

/-- C6: with orphans present and no skip/auto-delete/pre-approved policy,
a case-insensitive `yes` reply resolves the gate to approve and the delete
collaborator is invoked on the orphan list; a `skip` reply resolves to skip
with the form name, reason and orphan count recorded and zero deletions;
and polls containing no qualifying reply resolve to timeout with the same
kind of replay record and zero deletions. -/
theorem claim_C6_approval_gate (form_name : String) (orphans : List String)
    (pre_approved : List String) (delete_fn : List String → Nat) (ts : String)
    (m : SlackMsg) (rest polls : List (List SlackMsg))
    (hne : orphans ≠ []) (hpre : pre_approved.contains form_name = false)
    (hbot : m.bot_id = false) (hts : m.ts ≠ ts) :
    (strLower (strStrip m.text) = "yes" →
      wait_for_slack_approval true ts ([m] :: rest) = .approve
      ∧ cleanup_deleted_photos false false pre_approved true (some ts) ([m] :: rest)
          delete_fn orphans form_name
        = ⟨delete_fn orphans, .approved, [], false⟩)
    ∧ (strLower (strStrip m.text) = "skip" →
      wait_for_slack_approval true ts ([m] :: rest) = .skip
      ∧ cleanup_deleted_photos false false pre_approved true (some ts) ([m] :: rest)
          delete_fn orphans form_name
        = ⟨0, .skipped, [⟨form_name, "user requested", orphans.length⟩], false⟩)
    ∧ ((∀ msgs ∈ polls, scan_messages ts msgs = none) →
      wait_for_slack_approval true ts polls = .timeout
      ∧ cleanup_deleted_photos false false pre_approved true (some ts) polls
          delete_fn orphans form_name
        = ⟨0, .skipped, [⟨form_name, "no response", orphans.length⟩], false⟩) := by
  have hnem : orphans.isEmpty = false := by
    cases orphans
    · exact absurd rfl hne
    · rfl
  have hcheck := check_message_text ts m hbot hts
  have hscan := scan_single ts m
  refine ⟨?_, ?_, ?_⟩
  · intro htext
    have hwait : wait_for_slack_approval true ts ([m] :: rest) = .approve := by
      rw [wait_for_slack_approval, if_pos rfl, poll_for_response, hscan, hcheck, htext]
      rfl
    refine ⟨hwait, ?_⟩
    rw [cleanup_deleted_photos]
    rw [if_neg (by simp [hnem]), if_neg (by simp), if_neg (by simp),
      if_neg (by simp at hpre ⊢; exact hpre), if_pos rfl]
    rw [hwait]
  · intro htext
    have hwait : wait_for_slack_approval true ts ([m] :: rest) = .skip := by
      rw [wait_for_slack_approval, if_pos rfl, poll_for_response, hscan, hcheck, htext]
      rfl
    refine ⟨hwait, ?_⟩
    rw [cleanup_deleted_photos]
    rw [if_neg (by simp [hnem]), if_neg (by simp), if_neg (by simp),
      if_neg (by simp at hpre ⊢; exact hpre), if_pos rfl]
    rw [hwait]
  · intro hnone
    have hwait : wait_for_slack_approval true ts polls = .timeout := by
      rw [wait_for_slack_approval, if_pos rfl]
      exact poll_all_none ts polls hnone
    refine ⟨hwait, ?_⟩
    rw [cleanup_deleted_photos]
    rw [if_neg (by simp [hnem]), if_neg (by simp), if_neg (by simp),
      if_neg (by simp at hpre ⊢; exact hpre), if_pos rfl]
    rw [hwait]

/-- Witness for C6 at concrete inputs: an upper-case `YES` approves, `skip`
skips with a replay record, and an empty poll sequence times out with a
replay record. -/
theorem claim_C6_witness :
    (cleanup_deleted_photos false false [] true (some "100") ([[⟨false, "101", "YES"⟩]] ++ [])
        List.length ["x.jpg"] "FormA"
      = ⟨1, .approved, [], false⟩)
    ∧ (cleanup_deleted_photos false false [] true (some "100") [[⟨false, "101", "skip"⟩]]
        List.length ["x.jpg"] "FormA"
      = ⟨0, .skipped, [⟨"FormA", "user requested", 1⟩], false⟩)
    ∧ (cleanup_deleted_photos false false [] true (some "100") []
        List.length ["x.jpg"] "FormA"
      = ⟨0, .skipped, [⟨"FormA", "no response", 1⟩], false⟩) := by
  have h := claim_C6_approval_gate "FormA" ["x.jpg"] [] List.length "100"
    ⟨false, "101", "YES"⟩ [] [] (by simp) rfl rfl (by decide)
  have h2 := claim_C6_approval_gate "FormA" ["x.jpg"] [] List.length "100"
    ⟨false, "101", "skip"⟩ [] [] (by simp) rfl rfl (by decide)
  refine ⟨?_, ?_, ?_⟩
  · exact (h.1 (by decide)).2
  · exact (h2.2.1 (by decide)).2
  · exact (h.2.2 (by simp)).2

/-! ### Orchestrator run loop (`export_all`, lines 1740-1927) and
checkpoint state (`_load_export_state` lines 540-551,
`_save_export_state` lines 522-538, `_clear_export_state` lines 553-562) -/

/-- The persisted `export_state.json` payload fields relevant to resume:
`form_index` and `needs_continuation` (lines 525-530). -/
structure ExportStateFile where
  form_index : Nat
  needs_continuation : Bool

/-- Model of `_load_export_state` (lines 540-551): the saved state is honoured only
when its `needs_continuation` flag is set. -/
def load_export_state (file : Option ExportStateFile) : Option ExportStateFile :=
  match file with
  | some st => if st.needs_continuation then some st else none
  | none => none

/-- Resume cursor computation of `export_all` (lines 1766-1769): start at
the saved `form_index` when a continuation state exists, else at 0. -/
def start_form_index (file : Option ExportStateFile) : Nat :=
  match load_export_state file with
  | some st => st.form_index
  | none => 0

/-- Counter restoration of `export_all` (lines 1771-1774): for every key of
the saved stats that is also a key of the live stats, overwrite the live
value with the saved one.  Stats dictionaries are modelled as association
lists. -/
def restore_stats (cur prev : List (String × Nat)) : List (String × Nat) :=
  cur.map (fun kv =>
    match prev.lookup kv.1 with
    | some w => (kv.1, w)
    | none => kv)

/-- Observable outcome of the `for idx, form in enumerate(forms, 1)` loop of
`export_all` (lines 1812-1869): which 0-based form indices were submitted to
`export_form`, and whether the run ended by the self-imposed timeout break
(lines 1819-1826) or by the end-run cancellation break (line 1868). -/
structure RunOutcome where
  processed : List Nat
  timed_out : Bool
  cancelled : Bool
deriving DecidableEq

/-- The loop of `export_all` from cursor `i` over `n` forms (lines
1812-1869).  `timeout_at i` is the oracle for `_check_timeout()` observed
just before processing index `i`; `end_at i` says whether processing index
`i` raises the end-run signal (`export_ended` from a Slack `end` reply).
Indices below the resume cursor are skipped by the `continue` at lines
1813-1815, which the starting cursor models directly. -/
def export_loop (n : Nat) (timeout_at end_at : Nat → Bool) (i : Nat) : RunOutcome :=
  if h : n ≤ i then ⟨[], false, false⟩
  else if timeout_at i then ⟨[], true, false⟩
  else if end_at i then ⟨[i], false, true⟩
  else
    let r := export_loop n timeout_at end_at (i + 1)
    ⟨i :: r.processed, r.timed_out, r.cancelled⟩
termination_by n - i
decreasing_by omega

/-- Post-loop decision of `export_all` (lines 1874-1882):
`_clear_export_state()` runs only in the `COMPLETE` branch, i.e. when
neither the timeout flag nor the cancellation flag is set. -/
def clear_state_on_complete (r : RunOutcome) : Bool :=
  !r.timed_out && !r.cancelled

lemma export_loop_no_flags (n : Nat) (tB eA : Nat → Bool)
    (ht : ∀ j, tB j = false) (he : ∀ j, eA j = false) :
    ∀ i, export_loop n tB eA i = ⟨List.range' i (n - i), false, false⟩ := by
  have H : ∀ m i, n - i ≤ m →
      export_loop n tB eA i = ⟨List.range' i (n - i), false, false⟩ := by
    intro m
    induction m with
    | zero =>
      intro i hle
      have hni : n ≤ i := by omega
      rw [export_loop, dif_pos hni]
      have : n - i = 0 := by omega
      rw [this]
      rfl
    | succ m ih =>
      intro i hle
      by_cases hni : n ≤ i
      · rw [export_loop, dif_pos hni]
        have : n - i = 0 := by omega
        rw [this]
        rfl
      · rw [export_loop, dif_neg hni, ht i, he i]
        simp only [Bool.false_eq_true, if_false]
        rw [ih (i + 1) (by omega)]
        have hsub : n - i = (n - (i + 1)) + 1 := by omega
        rw [hsub, List.range'_succ]
  intro i
  exact H (n - i) i le_rfl

lemma export_loop_bounds (n : Nat) (tB eA : Nat → Bool) :
    ∀ i j, j ∈ (export_loop n tB eA i).processed → i ≤ j ∧ j < n := by
  have H : ∀ m i, n - i ≤ m →
      ∀ j, j ∈ (export_loop n tB eA i).processed → i ≤ j ∧ j < n := by
    intro m
    induction m with
    | zero =>
      intro i hle j hj
      have hni : n ≤ i := by omega
      rw [export_loop, dif_pos hni] at hj
      exact absurd hj (List.not_mem_nil j)
    | succ m ih =>
      intro i hle j hj
      by_cases hni : n ≤ i
      · rw [export_loop, dif_pos hni] at hj
        exact absurd hj (List.not_mem_nil j)
      · rw [export_loop, dif_neg hni] at hj
        by_cases htB : tB i = true
        · rw [if_pos htB] at hj
          exact absurd hj (List.not_mem_nil j)
        · rw [if_neg htB] at hj
          by_cases heA : eA i = true
          · rw [if_pos heA] at hj
            rw [List.mem_singleton] at hj
            omega
          · rw [if_neg heA] at hj
            rcases List.mem_cons.mp hj with hj | hj
            · omega
            · have := ih (i + 1) (by omega) j hj
              omega
  intro i
  exact H (n - i) i le_rfl

lemma export_loop_cleared (n : Nat) (tB eA : Nat → Bool) :
    ∀ i, clear_state_on_complete (export_loop n tB eA i) = true →
      export_loop n tB eA i = ⟨List.range' i (n - i), false, false⟩ := by
  have H : ∀ m i, n - i ≤ m →
      clear_state_on_complete (export_loop n tB eA i) = true →
      export_loop n tB eA i = ⟨List.range' i (n - i), false, false⟩ := by
    intro m
    induction m with
    | zero =>
      intro i hle _
      have hni : n ≤ i := by omega
      rw [export_loop, dif_pos hni]
      have : n - i = 0 := by omega
      rw [this]
      rfl
    | succ m ih =>
      intro i hle hcl
      by_cases hni : n ≤ i
      · rw [export_loop, dif_pos hni]
        have : n - i = 0 := by omega
        rw [this]
        rfl
      · rw [export_loop, dif_neg hni] at hcl ⊢
        by_cases htB : tB i = true
        · rw [if_pos htB] at hcl
          rw [clear_state_on_complete] at hcl
          simp at hcl
        · rw [if_neg htB] at hcl ⊢
          by_cases heA : eA i = true
          · rw [if_pos heA] at hcl
            rw [clear_state_on_complete] at hcl
            simp at hcl
          · rw [if_neg heA] at hcl ⊢
            have hrec : clear_state_on_complete (export_loop n tB eA (i + 1)) = true := by
              rw [clear_state_on_complete] at hcl ⊢
              exact hcl
            rw [ih (i + 1) (by omega) hrec]
            have hsub : n - i = (n - (i + 1)) + 1 := by omega
            rw [hsub, List.range'_succ]
  intro i
  exact H (n - i) i le_rfl

lemma restore_stats_lookup (cur prev : List (String × Nat)) (k : String) (w : Nat)
    (hw : prev.lookup k = some w) (hv : (cur.lookup k).isSome) :
    (restore_stats cur prev).lookup k = some w := by
  induction cur with
  | nil => simp at hv
  | cons kv tl ih =>
    rw [restore_stats, List.map_cons, List.lookup]
    by_cases hk : k = kv.1
    · have hbeq : (k == kv.1) = true := by simp [hk]
      rw [hk] at hw ⊢
      rw [hw]
      simp
    · have hbeq : (k == kv.1) = false := by simp [hk]
      rw [List.lookup, hbeq] at hv
      have hfst : (match prev.lookup kv.1 with
          | some w => (kv.1, w)
          | none => kv).1 = kv.1 := by
        cases prev.lookup kv.1 <;> rfl
      rw [hfst, hbeq]
      exact ih hv

/-- C2: after a checkpoint at cursor `k` over `n` forms, the resumed run
honours the continuation file, restores every saved counter it knows, and
-- absent any further timeout or end-run signal -- submits exactly the
forms with 0-based indices `k` through `n-1` to `export_form`; no index
below the cursor is ever submitted again, whatever the oracles do. -/
theorem claim_C2_resume (n k : Nat) (tB eA : Nat → Bool)
    (cur prev : List (String × Nat)) (key : String) (w : Nat) :
    (start_form_index (some ⟨k, true⟩) = k)
    ∧ (prev.lookup key = some w → (cur.lookup key).isSome →
        (restore_stats cur prev).lookup key = some w)
    ∧ (∀ j, j ∈ (export_loop n tB eA k).processed → k ≤ j ∧ j < n)
    ∧ ((∀ j, tB j = false) → (∀ j, eA j = false) →
        (export_loop n tB eA k).processed = List.range' k (n - k)) := by
  refine ⟨rfl, restore_stats_lookup cur prev key w, export_loop_bounds n tB eA k, ?_⟩
  intro ht he
  rw [export_loop_no_flags n tB eA ht he k]

/-- Witness for C2 at concrete inputs: resuming at cursor 1 over 3 forms
processes exactly indices 1 and 2, and a saved counter value is restored. -/
theorem claim_C2_witness :
    (export_loop 3 (fun _ => false) (fun _ => false) 1).processed = [1, 2]
    ∧ (restore_stats [("photos_uploaded", 0)] [("photos_uploaded", 7)]).lookup
        "photos_uploaded" = some 7
    ∧ (2 ∈ (export_loop 3 (fun _ => false) (fun _ => false) 1).processed →
        1 ≤ 2 ∧ 2 < 3) := by
  have h := claim_C2_resume 3 1 (fun _ => false) (fun _ => false)
    [("photos_uploaded", 0)] [("photos_uploaded", 7)] "photos_uploaded" 7
  refine ⟨?_, h.2.1 (by decide) (by decide), h.2.2.1 2⟩
  rw [h.2.2.2 (fun _ => rfl) (fun _ => rfl)]
  rfl

/-- C7: the post-run `COMPLETE` branch, the only one that clears the
export-state and photo-progress files, is reached exactly when neither the
self-imposed timeout nor the end-run cancellation fired; in that case the
loop processed every remaining form, and on a timeout or an end-run signal
the state files are preserved. -/
theorem claim_C7_clear_only_on_complete (n k : Nat) (tB eA : Nat → Bool) :
    (((export_loop n tB eA k).timed_out = true ∨
        (export_loop n tB eA k).cancelled = true) →
      clear_state_on_complete (export_loop n tB eA k) = false)
    ∧ (clear_state_on_complete (export_loop n tB eA k) = true →
        (export_loop n tB eA k).processed = List.range' k (n - k)
        ∧ (export_loop n tB eA k).timed_out = false
        ∧ (export_loop n tB eA k).cancelled = false) := by
  constructor
  · intro hflag
    rw [clear_state_on_complete]
    rcases hflag with h | h <;> rw [h] <;> simp
  · intro hcl
    have := export_loop_cleared n tB eA k hcl
    rw [this]
    exact ⟨rfl, rfl, rfl⟩

/-- Witness for C7 at concrete inputs: a run whose timeout oracle fires at
index 1 is not cleared; a run with no interruptions is cleared having
processed everything. -/
theorem claim_C7_witness :
    clear_state_on_complete (export_loop 3 (fun j => j == 1) (fun _ => false) 0) = false
    ∧ (export_loop 2 (fun _ => false) (fun _ => false) 0).processed = List.range' 0 2 := by
  constructor
  · refine (claim_C7_clear_only_on_complete 3 0 (fun j => j == 1) (fun _ => false)).1
      (Or.inl ?_)
    rw [export_loop]
    simp only [show ¬(3 ≤ 0) from by omega, dite_false]
    rw [show ((0 : Nat) == 1) = false from rfl]
    simp only [Bool.false_eq_true, if_false]
    rw [export_loop]
    simp only [show ¬(3 ≤ 1) from by omega, dite_false]
    rw [show ((1 : Nat) == 1) = true from rfl]
    simp
  · have h := (claim_C7_clear_only_on_complete 2 0 (fun _ => false) (fun _ => false)).2 ?_
    · exact h.1
    · rw [export_loop_no_flags 2 (fun _ => false) (fun _ => false)
        (fun _ => rfl) (fun _ => rfl) 0]
      rfl

/-! ### Asset transfer pipeline (`download_photo_with_metadata` lines
1135-1169, `_process_single_photo` lines 1550-1578,
`_download_and_upload_photos` lines 1580-1649, and the retry loop of
`export_form`, lines 1395-1433) -/

/-- The photo metadata fields consulted by the pipeline, from the batch
metadata of `get_photos_metadata_batch` (lines 1141-1150): `deleted_at`,
`stored`, `processed` and `content_type`. -/
structure PhotoMeta where
  deleted_at : Option String
  stored : Bool
  processed : Bool
  content_type : String

/-- Outcome of one GET of the photo bytes inside the fetch retry loop
(lines 1155-1167): success, a retryable SSL/connection error, or any other
exception (which returns immediately). -/
inductive FetchResult
  | ok
  | connectionError
  | otherError
deriving DecidableEq

/-- Result of the download step: the error message if any (the exact
non-terminal error text is abstracted), and how many source-API requests
were issued. -/
structure DownloadOutcome where
  error : Option String
  network_calls : Nat
deriving DecidableEq

/-- The `for attempt in range(max_retries)` fetch loop of
`download_photo_with_metadata` (lines 1155-1169): each iteration issues one
GET; a success or a non-connection error returns immediately, a connection
error retries until the attempts are exhausted.  `fetch attempt` is the
result of the GET at that attempt index; the result pairs success with the
number of requests issued. -/
def fetch_loop (fetch : Nat → FetchResult) : Nat → Nat → Bool × Nat
  | _, 0 => (false, 0)
  | attempt, remaining + 1 =>
    match fetch attempt with
    | .ok => (true, 1)
    | .otherError => (false, 1)
    | .connectionError =>
      ((fetch_loop fetch (attempt + 1) remaining).1,
       (fetch_loop fetch (attempt + 1) remaining).2 + 1)

/-- Model of `download_photo_with_metadata` (lines 1135-1169): validation against
the batch metadata happens before any network request, so a photo marked
deleted, not stored or not processed is rejected with zero network calls;
otherwise the direct-endpoint fetch loop runs with `max_retries = 3`. -/
def download_photo_with_metadata (photo_data : PhotoMeta)
    (fetch : Nat → FetchResult) : DownloadOutcome :=
  if photo_data.deleted_at.isSome then ⟨some "Photo deleted", 0⟩
  else if photo_data.stored = false then ⟨some "Photo not stored", 0⟩
  else if photo_data.processed = false then ⟨some "Photo not processed", 0⟩
  else if (fetch_loop fetch 0 3).1 then ⟨none, (fetch_loop fetch 0 3).2⟩
  else ⟨some "SSL/Connection error after 3 retries", (fetch_loop fetch 0 3).2⟩

/-- Model of `download_photo_to_memory` (lines 1171-1213), the fallback used when a
photo id is absent from the batch metadata cache: a metadata GET precedes
the same validation, so even a rejected photo costs one network request on
this path (connection-retries of the metadata request itself are folded
into the byte-fetch oracle). -/
def download_photo_to_memory (photo_data : PhotoMeta)
    (fetch : Nat → FetchResult) : DownloadOutcome :=
  if photo_data.deleted_at.isSome then ⟨some "Photo deleted", 1⟩
  else if photo_data.stored = false then ⟨some "Photo not stored", 1⟩
  else if photo_data.processed = false then ⟨some "Photo not processed", 1⟩
  else if (fetch_loop fetch 0 3).1 then ⟨none, (fetch_loop fetch 0 3).2 + 1⟩
  else ⟨some "SSL/Connection error after 3 retries", (fetch_loop fetch 0 3).2 + 1⟩

/-- Observable result of `_process_single_photo` (lines 1550-1578) for one
photo in one round: whether it succeeded, the number of source-API
requests, and the number of `_upload_to_drive` invocations that reach the
Drive `files().create` call (each such invocation issues at least one and
at most three `create` requests, lines 689-699). -/
structure ProcessOutcome where
  success : Bool
  network_calls : Nat
  create_calls : Nat
deriving DecidableEq

/-- The download-path selection of `_process_single_photo`
(lines 1554-1558): use the batch metadata when the photo id is in the
cache, else the individual-fetch fallback. -/
def downloadResultOf (cached : Option PhotoMeta) (remote : PhotoMeta)
    (fetch : Nat → FetchResult) : DownloadOutcome :=
  match cached with
  | some pd => download_photo_with_metadata pd fetch
  | none => download_photo_to_memory remote fetch

/-- Model of `_process_single_photo` (lines 1550-1578): a download error marks the
photo failed with no upload attempted (lines 1560-1563); otherwise
`_upload_to_drive` is invoked once and the photo succeeds iff the upload
does (lines 1565-1578). -/
def process_single_photo (cached : Option PhotoMeta) (remote : PhotoMeta)
    (fetch : Nat → FetchResult) (upload_ok : Bool) : ProcessOutcome :=
  if (downloadResultOf cached remote fetch).error.isSome then
    ⟨false, (downloadResultOf cached remote fetch).network_calls, 0⟩
  else ⟨upload_ok, (downloadResultOf cached remote fetch).network_calls, 1⟩

/-- Oracles describing one run's interaction with the collaborators, per
retry round and photo id: the batch metadata cache, the fallback metadata,
the per-attempt fetch results, and the upload result. -/
structure PhotoEnv where
  cache : String → Option PhotoMeta
  remote : String → PhotoMeta
  fetch : Nat → String → Nat → FetchResult
  upload : Nat → String → Bool

/-- The processing of one photo in one round under the given oracles. -/
def photoStep (env : PhotoEnv) (round : Nat) (pid : String) : ProcessOutcome :=
  process_single_photo (env.cache pid) (env.remote pid)
    (env.fetch round pid) (env.upload round pid)

/-- Success of one photo in one round. -/
def stepSuccess (env : PhotoEnv) (round : Nat) (pid : String) : Bool :=
  (photoStep env round pid).success

/-- The `failed` list produced by `_download_and_upload_photos`
(lines 1580-1649) for one round: exactly the submitted photos whose result
is not a success. -/
def roundFailed (env : PhotoEnv) (round : Nat) (photos : List String) : List String :=
  photos.filter (fun p => !stepSuccess env round p)

/-- Trace of the photo phase of `export_form`: the rounds actually
submitted to `_download_and_upload_photos` (round index paired with the
submitted photo list) and the `failed_photos` variable as left when the
retry loop exits.  On the no-progress break (lines 1425-1429) the loop
exits before the `failed_photos = still_failed` assignment, so the
pre-round list is what remains. -/
structure RetryTrace where
  rounds : List (Nat × List String)
  final_failed : List String
deriving DecidableEq

/-- The `while failed_photos and retry_count < 3` retry loop of
`export_form` (lines 1408-1433).  `prev_count` is `previous_failed_count`;
it is updated only when a round makes progress (line 1431).  `fuel` bounds
the recursion; since `retry_count` grows by one per iteration and the loop
exits at `retry_count >= 3`, fuel 4 is never exhausted from the initial
state. -/
def retry_loop (env : PhotoEnv) : Nat → List String → Nat → Nat → RetryTrace
  | 0, failed, _, _ => ⟨[], failed⟩
  | fuel + 1, failed, retry_count, prev_count =>
    if failed.isEmpty then ⟨[], failed⟩
    else if 3 ≤ retry_count then ⟨[], failed⟩
    else if prev_count ≤ (roundFailed env (retry_count + 1) failed).length then
      if 2 ≤ retry_count + 1 then ⟨[(retry_count + 1, failed)], failed⟩
      else
        ⟨(retry_count + 1, failed) ::
            (retry_loop env fuel (roundFailed env (retry_count + 1) failed)
              (retry_count + 1) prev_count).rounds,
          (retry_loop env fuel (roundFailed env (retry_count + 1) failed)
            (retry_count + 1) prev_count).final_failed⟩
    else
      ⟨(retry_count + 1, failed) ::
          (retry_loop env fuel (roundFailed env (retry_count + 1) failed)
            (retry_count + 1)
            (roundFailed env (retry_count + 1) failed).length).rounds,
        (retry_loop env fuel (roundFailed env (retry_count + 1) failed)
          (retry_count + 1)
          (roundFailed env (retry_count + 1) failed).length).final_failed⟩

/-- The whole photo download/upload phase of `export_form` (lines
1364-1433): the backlog is built by the skip filter, the initial round
(round 0, lines 1404-1406) runs only when the backlog is non-empty, then
the retry loop runs starting from the initial round's failures. -/
def photo_phase (env : PhotoEnv)
    (all_photos existing_photos uploaded_photos : List String) : RetryTrace :=
  if (photosToDownload all_photos existing_photos uploaded_photos).isEmpty then ⟨[], []⟩
  else
    ⟨(0, photosToDownload all_photos existing_photos uploaded_photos) ::
        (retry_loop env 4
          (roundFailed env 0 (photosToDownload all_photos existing_photos uploaded_photos))
          0
          (roundFailed env 0
            (photosToDownload all_photos existing_photos uploaded_photos)).length).rounds,
      (retry_loop env 4
        (roundFailed env 0 (photosToDownload all_photos existing_photos uploaded_photos))
        0
        (roundFailed env 0
          (photosToDownload all_photos existing_photos uploaded_photos)).length).final_failed⟩

/-- Weighted occurrence count of a photo id over a list of rounds: per
round, the number of submitted copies of the id times a per-round weight. -/
def roundsWeight (rounds : List (Nat × List String)) (pid : String)
    (w : Nat → Nat) : Nat :=
  (rounds.map (fun rp => rp.2.count pid * w rp.1)).sum

/-- Number of times a photo id is submitted to the pipeline across the
traced rounds. -/
def timesSubmitted (t : RetryTrace) (pid : String) : Nat :=
  roundsWeight t.rounds pid (fun _ => 1)

/-- Total Drive object-creation invocations for a photo id across the
traced rounds. -/
def createCallsFor (env : PhotoEnv) (t : RetryTrace) (pid : String) : Nat :=
  roundsWeight t.rounds pid (fun r => (photoStep env r pid).create_calls)

/-- Total successful Drive object creations for a photo id across the
traced rounds. -/
def successCountFor (env : PhotoEnv) (t : RetryTrace) (pid : String) : Nat :=
  roundsWeight t.rounds pid (fun r => if stepSuccess env r pid then 1 else 0)

/-- Total source-API requests made for a photo id across the traced
rounds. -/
def netCallsFor (env : PhotoEnv) (t : RetryTrace) (pid : String) : Nat :=
  roundsWeight t.rounds pid (fun r => (photoStep env r pid).network_calls)

lemma retry_loop_succ (env : PhotoEnv) (fuel : Nat) (failed : List String)
    (rc pc : Nat) :
    retry_loop env (fuel + 1) failed rc pc =
      if failed.isEmpty then ⟨[], failed⟩
      else if 3 ≤ rc then ⟨[], failed⟩
      else if pc ≤ (roundFailed env (rc + 1) failed).length then
        if 2 ≤ rc + 1 then ⟨[(rc + 1, failed)], failed⟩
        else
          ⟨(rc + 1, failed) ::
              (retry_loop env fuel (roundFailed env (rc + 1) failed)
                (rc + 1) pc).rounds,
            (retry_loop env fuel (roundFailed env (rc + 1) failed)
              (rc + 1) pc).final_failed⟩
      else
        ⟨(rc + 1, failed) ::
            (retry_loop env fuel (roundFailed env (rc + 1) failed)
              (rc + 1) (roundFailed env (rc + 1) failed).length).rounds,
          (retry_loop env fuel (roundFailed env (rc + 1) failed)
            (rc + 1) (roundFailed env (rc + 1) failed).length).final_failed⟩ := rfl

lemma mem_roundFailed (env : PhotoEnv) (r : Nat) (photos : List String)
    (pid : String) :
    pid ∈ roundFailed env r photos ↔
      pid ∈ photos ∧ stepSuccess env r pid = false := by
  rw [roundFailed, List.mem_filter]
  simp

lemma roundsWeight_nil (pid : String) (w : Nat → Nat) :
    roundsWeight [] pid w = 0 := rfl

lemma roundsWeight_cons (rp : Nat × List String)
    (rounds : List (Nat × List String)) (pid : String) (w : Nat → Nat) :
    roundsWeight (rp :: rounds) pid w =
      rp.2.count pid * w rp.1 + roundsWeight rounds pid w := by
  rw [roundsWeight, List.map_cons, List.sum_cons]
  rfl

lemma roundsWeight_zero (rounds : List (Nat × List String)) (pid : String)
    (w : Nat → Nat) (h : ∀ rp ∈ rounds, pid ∉ rp.2) :
    roundsWeight rounds pid w = 0 := by
  induction rounds with
  | nil => rfl
  | cons rp rest ih =>
    rw [roundsWeight_cons]
    rw [List.count_eq_zero.mpr (h rp (List.mem_cons_self rp rest))]
    rw [ih fun x hx => h x (List.mem_cons_of_mem rp hx)]
    simp

lemma retry_loop_excludes (env : PhotoEnv) (pid : String) :
    ∀ (fuel : Nat) (failed : List String) (rc pc : Nat), pid ∉ failed →
      (∀ rp ∈ (retry_loop env fuel failed rc pc).rounds, pid ∉ rp.2)
      ∧ pid ∉ (retry_loop env fuel failed rc pc).final_failed := by
  intro fuel
  induction fuel with
  | zero =>
    intro failed rc pc h
    exact ⟨fun rp hrp => absurd hrp (List.not_mem_nil rp), h⟩
  | succ fuel ih =>
    intro failed rc pc h
    have hstill : pid ∉ roundFailed env (rc + 1) failed := by
      intro hmem
      exact h ((mem_roundFailed env (rc + 1) failed pid).mp hmem).1
    rw [retry_loop_succ]
    by_cases he : failed.isEmpty
    · rw [if_pos he]
      exact ⟨fun rp hrp => absurd hrp (List.not_mem_nil rp), h⟩
    · rw [if_neg he]
      by_cases h3 : 3 ≤ rc
      · rw [if_pos h3]
        exact ⟨fun rp hrp => absurd hrp (List.not_mem_nil rp), h⟩
      · rw [if_neg h3]
        by_cases hpl : pc ≤ (roundFailed env (rc + 1) failed).length
        · rw [if_pos hpl]
          by_cases h2 : 2 ≤ rc + 1
          · rw [if_pos h2]
            refine ⟨fun rp hrp => ?_, h⟩
            rw [List.mem_singleton] at hrp
            rw [hrp]
            exact h
          · rw [if_neg h2]
            have hrec := ih (roundFailed env (rc + 1) failed) (rc + 1) pc hstill
            refine ⟨fun rp hrp => ?_, hrec.2⟩
            rcases List.mem_cons.mp hrp with hrp | hrp
            · rw [hrp]
              exact h
            · exact hrec.1 rp hrp
        · rw [if_neg hpl]
          have hrec := ih (roundFailed env (rc + 1) failed) (rc + 1)
            (roundFailed env (rc + 1) failed).length hstill
          refine ⟨fun rp hrp => ?_, hrec.2⟩
          rcases List.mem_cons.mp hrp with hrp | hrp
          · rw [hrp]
            exact h
          · exact hrec.1 rp hrp

lemma retry_loop_success_le (env : PhotoEnv) (pid : String) :
    ∀ (fuel : Nat) (failed : List String) (rc pc : Nat), failed.Nodup →
      roundsWeight (retry_loop env fuel failed rc pc).rounds pid
        (fun r => if stepSuccess env r pid then 1 else 0) ≤ 1 := by
  intro fuel
  induction fuel with
  | zero =>
    intro failed rc pc _
    exact Nat.le_of_eq (roundsWeight_nil pid _) |>.trans (Nat.zero_le 1)
  | succ fuel ih =>
    intro failed rc pc hnd
    have hcnt : failed.count pid ≤ 1 := List.nodup_iff_count_le_one.mp hnd pid
    have hndstill : (roundFailed env (rc + 1) failed).Nodup := hnd.filter _
    have hhead : failed.count pid *
        (if stepSuccess env (rc + 1) pid then 1 else 0) ≤ 1 := by
      by_cases hs : stepSuccess env (rc + 1) pid = true
      · rw [if_pos hs, Nat.mul_one]
        exact hcnt
      · rw [if_neg hs, Nat.mul_zero]
        exact Nat.zero_le 1
    have htail0 : stepSuccess env (rc + 1) pid = true →
        roundsWeight (retry_loop env fuel (roundFailed env (rc + 1) failed)
          (rc + 1) pc).rounds pid
          (fun r => if stepSuccess env r pid then 1 else 0) = 0
        ∧ roundsWeight (retry_loop env fuel (roundFailed env (rc + 1) failed)
          (rc + 1) (roundFailed env (rc + 1) failed).length).rounds pid
          (fun r => if stepSuccess env r pid then 1 else 0) = 0 := by
      intro hs
      have hstill : pid ∉ roundFailed env (rc + 1) failed := by
        intro hmem
        have := ((mem_roundFailed env (rc + 1) failed pid).mp hmem).2
        rw [hs] at this
        exact absurd this (by simp)
      exact ⟨roundsWeight_zero _ pid _
          (retry_loop_excludes env pid fuel _ (rc + 1) pc hstill).1,
        roundsWeight_zero _ pid _
          (retry_loop_excludes env pid fuel _ (rc + 1) _ hstill).1⟩
    rw [retry_loop_succ]
    by_cases he : failed.isEmpty
    · rw [if_pos he, roundsWeight_nil]
      exact Nat.zero_le 1
    · rw [if_neg he]
      by_cases h3 : 3 ≤ rc
      · rw [if_pos h3, roundsWeight_nil]
        exact Nat.zero_le 1
      · rw [if_neg h3]
        by_cases hpl : pc ≤ (roundFailed env (rc + 1) failed).length
        · rw [if_pos hpl]
          by_cases h2 : 2 ≤ rc + 1
          · rw [if_pos h2, roundsWeight_cons, roundsWeight_nil]
            simpa using hhead
          · rw [if_neg h2, roundsWeight_cons]
            by_cases hs : stepSuccess env (rc + 1) pid = true
            · have := (htail0 hs).1
              rw [this]
              simpa using hhead
            · rw [if_neg hs, Nat.mul_zero, Nat.zero_add]
              exact ih _ (rc + 1) pc hndstill
        · rw [if_neg hpl, roundsWeight_cons]
          by_cases hs : stepSuccess env (rc + 1) pid = true
          · have := (htail0 hs).2
            rw [this]
            simpa using hhead
          · rw [if_neg hs, Nat.mul_zero, Nat.zero_add]
            exact ih _ (rc + 1) _ hndstill

lemma retry_loop_final_mem (env : PhotoEnv) (pid : String)
    (hfail : ∀ r, stepSuccess env r pid = false) :
    ∀ (fuel : Nat) (failed : List String) (rc pc : Nat), pid ∈ failed →
      pid ∈ (retry_loop env fuel failed rc pc).final_failed := by
  intro fuel
  induction fuel with
  | zero =>
    intro failed rc pc h
    exact h
  | succ fuel ih =>
    intro failed rc pc h
    have hstill : pid ∈ roundFailed env (rc + 1) failed :=
      (mem_roundFailed env (rc + 1) failed pid).mpr ⟨h, hfail (rc + 1)⟩
    rw [retry_loop_succ]
    by_cases he : failed.isEmpty
    · rw [if_pos he]
      exact h
    · rw [if_neg he]
      by_cases h3 : 3 ≤ rc
      · rw [if_pos h3]
        exact h
      · rw [if_neg h3]
        by_cases hpl : pc ≤ (roundFailed env (rc + 1) failed).length
        · rw [if_pos hpl]
          by_cases h2 : 2 ≤ rc + 1
          · rw [if_pos h2]
            exact h
          · rw [if_neg h2]
            exact ih _ (rc + 1) pc hstill
        · rw [if_neg hpl]
          exact ih _ (rc + 1) _ hstill

lemma photo_phase_excluded (env : PhotoEnv)
    (all existing uploaded : List String) (pid : String)
    (hnb : pid ∉ photosToDownload all existing uploaded) :
    ∀ rp ∈ (photo_phase env all existing uploaded).rounds, pid ∉ rp.2 := by
  rw [photo_phase]
  by_cases hb : (photosToDownload all existing uploaded).isEmpty
  · rw [if_pos hb]
    intro rp hrp
    exact absurd hrp (List.not_mem_nil rp)
  · rw [if_neg hb]
    intro rp hrp
    have hf0 : pid ∉ roundFailed env 0 (photosToDownload all existing uploaded) :=
      fun hm => hnb ((mem_roundFailed env 0 _ pid).mp hm).1
    rcases List.mem_cons.mp hrp with hrp | hrp
    · rw [hrp]
      exact hnb
    · exact (retry_loop_excludes env pid 4 _ 0 _ hf0).1 rp hrp

lemma photo_phase_success_le (env : PhotoEnv)
    (all existing uploaded : List String) (pid : String) (hnd : all.Nodup) :
    successCountFor env (photo_phase env all existing uploaded) pid ≤ 1 := by
  have hndb : (photosToDownload all existing uploaded).Nodup := hnd.filter _
  rw [successCountFor, photo_phase]
  by_cases hb : (photosToDownload all existing uploaded).isEmpty
  · rw [if_pos hb]
    exact Nat.zero_le 1
  · rw [if_neg hb]
    rw [show ((⟨(0, photosToDownload all existing uploaded) ::
        (retry_loop env 4
          (roundFailed env 0 (photosToDownload all existing uploaded)) 0
          (roundFailed env 0 (photosToDownload all existing uploaded)).length).rounds,
        (retry_loop env 4
          (roundFailed env 0 (photosToDownload all existing uploaded)) 0
          (roundFailed env 0 (photosToDownload all existing uploaded)).length).final_failed⟩ :
        RetryTrace).rounds
      = (0, photosToDownload all existing uploaded) ::
        (retry_loop env 4
          (roundFailed env 0 (photosToDownload all existing uploaded)) 0
          (roundFailed env 0 (photosToDownload all existing uploaded)).length).rounds)
      from rfl]
    rw [roundsWeight_cons]
    by_cases hs : stepSuccess env 0 pid = true
    · have hstill : pid ∉ roundFailed env 0 (photosToDownload all existing uploaded) := by
        intro hmem
        have := ((mem_roundFailed env 0 _ pid).mp hmem).2
        rw [hs] at this
        exact absurd this (by simp)
      rw [roundsWeight_zero _ pid _
        (retry_loop_excludes env pid 4 _ 0 _ hstill).1]
      rw [if_pos hs, Nat.mul_one, Nat.add_zero]
      exact List.nodup_iff_count_le_one.mp hndb pid
    · rw [if_neg hs, Nat.mul_zero, Nat.zero_add]
      exact retry_loop_success_le env pid 4 _ 0 _ (hndb.filter _)

/-- C1 counterexample environment: the photo downloads fine every round,
the Drive upload fails in round 0 and succeeds in round 1. -/
def envC1 : PhotoEnv where
  cache := fun _ => some ⟨none, true, true, "image/jpeg"⟩
  remote := fun _ => ⟨none, true, true, "image/jpeg"⟩
  fetch := fun _ _ _ => .ok
  upload := fun r _ => r != 0

/-- C1 counterexample: a single backlog photo whose upload fails
transiently in the initial round and succeeds in retry round 1 has the
Drive object-creation call invoked twice across the run, refuting
`createObject ... is invoked at most once` as stated. -/
theorem claim_C1_counterexample :
    createCallsFor envC1 (photo_phase envC1 ["p"] [] []) "p" = 2
    ∧ ¬ createCallsFor envC1 (photo_phase envC1 ["p"] [] []) "p" ≤ 1 := by
  constructor
  · rfl
  · decide

/-- C1 (amended): an asset already present in the target listing under
either deterministic key, or already recorded in the checkpoint's
transferred set, is excluded from the backlog before any work: it is never
submitted, incurs no object-creation call and no source request; and for a
duplicate-free photo collection, at most one object creation ever
*succeeds* per asset id across the initial round and all retry rounds
(failed creation attempts may recur, as the counterexample shows). -/
theorem claim_C1_at_most_one_success (env : PhotoEnv)
    (all existing uploaded : List String) (pid : String) :
    ((existing.contains (pid ++ ".jpg") = true
        ∨ existing.contains (pid ++ ".png") = true
        ∨ uploaded.contains pid = true) →
      timesSubmitted (photo_phase env all existing uploaded) pid = 0
      ∧ createCallsFor env (photo_phase env all existing uploaded) pid = 0
      ∧ netCallsFor env (photo_phase env all existing uploaded) pid = 0)
    ∧ (all.Nodup →
        successCountFor env (photo_phase env all existing uploaded) pid ≤ 1) := by
  constructor
  · intro hskip
    have hnb : pid ∉ photosToDownload all existing uploaded := by
      intro hmem
      rw [photosToDownload, List.mem_filter] at hmem
      have h2 := hmem.2
      rcases hskip with h | h | h <;> rw [h] at h2 <;> simp at h2
    have hall := photo_phase_excluded env all existing uploaded pid hnb
    exact ⟨roundsWeight_zero _ pid _ hall, roundsWeight_zero _ pid _ hall,
      roundsWeight_zero _ pid _ hall⟩
  · exact photo_phase_success_le env all existing uploaded pid

/-- Witness for C1 (amended) at concrete inputs: an id in the checkpoint
set is never submitted, and the counterexample environment still performs
at most one successful creation. -/
theorem claim_C1_witness :
    (timesSubmitted (photo_phase envC1 ["q"] [] ["q"]) "q" = 0
      ∧ createCallsFor envC1 (photo_phase envC1 ["q"] [] ["q"]) "q" = 0
      ∧ netCallsFor envC1 (photo_phase envC1 ["q"] [] ["q"]) "q" = 0)
    ∧ successCountFor envC1 (photo_phase envC1 ["p"] [] []) "p" ≤ 1 :=
  ⟨(claim_C1_at_most_one_success envC1 ["q"] [] ["q"] "q").1
      (Or.inr (Or.inr (by decide))),
   (claim_C1_at_most_one_success envC1 ["p"] [] [] "p").2 (by decide)⟩

lemma download_rejected (pd : PhotoMeta) (f : Nat → FetchResult)
    (hmark : pd.deleted_at.isSome = true ∨ pd.stored = false ∨ pd.processed = false) :
    (download_photo_with_metadata pd f).error.isSome = true
    ∧ (download_photo_with_metadata pd f).network_calls = 0 := by
  rw [download_photo_with_metadata]
  by_cases h1 : pd.deleted_at.isSome = true
  · rw [if_pos h1]
    exact ⟨rfl, rfl⟩
  · rw [if_neg h1]
    by_cases h2 : pd.stored = false
    · rw [if_pos h2]
      exact ⟨rfl, rfl⟩
    · rw [if_neg h2]
      have h3 : pd.processed = false := by
        rcases hmark with h | h | h
        · exact absurd h h1
        · exact absurd h h2
        · exact h
      rw [if_pos h3]
      exact ⟨rfl, rfl⟩

lemma photoStep_rejected (env : PhotoEnv) (pid : String) (pd : PhotoMeta)
    (hc : env.cache pid = some pd)
    (hmark : pd.deleted_at.isSome = true ∨ pd.stored = false ∨ pd.processed = false)
    (r : Nat) :
    photoStep env r pid = ⟨false, 0, 0⟩ := by
  have hd := download_rejected pd (env.fetch r pid) hmark
  have hdl : downloadResultOf (env.cache pid) (env.remote pid) (env.fetch r pid)
      = download_photo_with_metadata pd (env.fetch r pid) := by
    rw [hc]
    rfl
  rw [photoStep, process_single_photo, hdl, if_pos hd.1, hd.2]

/-- C3 counterexample environment: the batch metadata marks the photo
deleted; everything else would succeed. -/
def envC3 : PhotoEnv where
  cache := fun _ => some ⟨some "2024-01-01T00:00:00Z", true, true, "image/jpeg"⟩
  remote := fun _ => ⟨none, true, true, "image/jpeg"⟩
  fetch := fun _ _ _ => .ok
  upload := fun _ _ => true

/-- C3 counterexample: a backlog photo whose metadata marks it deleted is
submitted to the pipeline in the initial round and in retry rounds 1 and 2
(so it *is* retried), ends the phase in the failed list (counted into
`photos_failed`, line 1520), and contributes nothing to the `skipped`
counter (line 1384) -- refuting `never retries it, and counts it as
skipped rather than as an error or a failure`.  Its processing makes no
network call, which is the part of the claim the code satisfies. -/
theorem claim_C3_counterexample :
    timesSubmitted (photo_phase envC3 ["d"] [] []) "d" = 3
    ∧ netCallsFor envC3 (photo_phase envC3 ["d"] [] []) "d" = 0
    ∧ (photo_phase envC3 ["d"] [] []).final_failed = ["d"]
    ∧ ["d"].length - (photosToDownload ["d"] [] []).length = 0
    ∧ ¬ (timesSubmitted (photo_phase envC3 ["d"] [] []) "d" ≤ 1
        ∧ "d" ∉ (photo_phase envC3 ["d"] [] []).final_failed) := by
  refine ⟨rfl, rfl, rfl, rfl, ?_⟩
  decide

/-- C3 (amended): an asset whose batch metadata marks it deleted,
not-stored or not-processed is rejected on every encounter with no network
call and no object-creation call; it is nevertheless re-submitted by the
retry rounds, and if it was in the backlog it ends the phase in the failed
list, i.e. it is counted as failed, not skipped. -/
theorem claim_C3_terminal_reject (env : PhotoEnv)
    (all existing uploaded : List String) (pid : String) (pd : PhotoMeta)
    (hc : env.cache pid = some pd)
    (hmark : pd.deleted_at.isSome = true ∨ pd.stored = false ∨ pd.processed = false) :
    (∀ r, photoStep env r pid = ⟨false, 0, 0⟩)
    ∧ (pid ∈ photosToDownload all existing uploaded →
        pid ∈ (photo_phase env all existing uploaded).final_failed) := by
  have hstep := photoStep_rejected env pid pd hc hmark
  refine ⟨hstep, ?_⟩
  intro hmem
  have hfail : ∀ r, stepSuccess env r pid = false := by
    intro r
    rw [stepSuccess, hstep r]
  have hb : (photosToDownload all existing uploaded).isEmpty = false := by
    cases h : photosToDownload all existing uploaded
    · rw [h] at hmem
      exact absurd hmem (List.not_mem_nil pid)
    · rfl
  rw [photo_phase, if_neg (by rw [hb]; exact Bool.false_ne_true)]
  exact retry_loop_final_mem env pid hfail 4 _ 0 _
    ((mem_roundFailed env 0 _ pid).mpr ⟨hmem, hfail 0⟩)

/-- Witness for C3 (amended) at concrete inputs. -/
theorem claim_C3_witness :
    photoStep envC3 5 "d" = ⟨false, 0, 0⟩
    ∧ "d" ∈ (photo_phase envC3 ["d"] [] []).final_failed :=
  ⟨(claim_C3_terminal_reject envC3 ["d"] [] [] "d"
      ⟨some "2024-01-01T00:00:00Z", true, true, "image/jpeg"⟩ rfl (Or.inl rfl)).1 5,
   (claim_C3_terminal_reject envC3 ["d"] [] [] "d"
      ⟨some "2024-01-01T00:00:00Z", true, true, "image/jpeg"⟩ rfl (Or.inl rfl)).2
      (by decide)⟩

/-- C4: if retry round 1 and retry round 2 end with the same failure count,
the retry loop of `export_form` stops after round 2: the batch is never
submitted to a third retry round. -/
theorem claim_C4_no_third_round (env : PhotoEnv) (failed0 : List String)
    (hsame : (roundFailed env 1 failed0).length
        = (roundFailed env 2 (roundFailed env 1 failed0)).length) :
    (retry_loop env 4 failed0 0 failed0.length).rounds.length ≤ 2 := by
  rw [show (4 : Nat) = 3 + 1 from rfl, retry_loop_succ]
  by_cases he : failed0.isEmpty
  · rw [if_pos he]
    simp
  · rw [if_neg he, if_neg (by omega : ¬ 3 ≤ 0)]
    simp only [Nat.zero_add]
    have h12 : (1 : Nat) + 1 = 2 := rfl
    by_cases hp : failed0.length ≤ (roundFailed env 1 failed0).length
    · rw [if_pos hp, if_neg (by omega : ¬ 2 ≤ 1)]
      have hinner : (retry_loop env 3 (roundFailed env 1 failed0) 1
          failed0.length).rounds.length ≤ 1 := by
        rw [show (3 : Nat) = 2 + 1 from rfl, retry_loop_succ]
        by_cases he1 : (roundFailed env 1 failed0).isEmpty
        · rw [if_pos he1]
          simp
        · rw [if_neg he1, if_neg (by omega : ¬ 3 ≤ 1), h12]
          have hcond : failed0.length ≤
              (roundFailed env 2 (roundFailed env 1 failed0)).length := by
            rw [← hsame]
            exact hp
          rw [if_pos hcond, if_pos (by omega : 2 ≤ 2)]
          simp
      simp only [List.length_cons]
      omega
    · rw [if_neg hp]
      have hinner : (retry_loop env 3 (roundFailed env 1 failed0) 1
          (roundFailed env 1 failed0).length).rounds.length ≤ 1 := by
        rw [show (3 : Nat) = 2 + 1 from rfl, retry_loop_succ]
        by_cases he1 : (roundFailed env 1 failed0).isEmpty
        · rw [if_pos he1]
          simp
        · rw [if_neg he1, if_neg (by omega : ¬ 3 ≤ 1), h12]
          have hcond : (roundFailed env 1 failed0).length ≤
              (roundFailed env 2 (roundFailed env 1 failed0)).length := by
            rw [← hsame]
          rw [if_pos hcond, if_pos (by omega : 2 ≤ 2)]
          simp
      simp only [List.length_cons]
      omega

/-- C4 witness environment: every upload fails, so every round fails in
full. -/
def envC4 : PhotoEnv where
  cache := fun _ => some ⟨none, true, true, "image/jpeg"⟩
  remote := fun _ => ⟨none, true, true, "image/jpeg"⟩
  fetch := fun _ _ _ => .ok
  upload := fun _ _ => false

/-- Witness for C4 at a concrete input: a two-photo batch that fails in
full on rounds 1 and 2 is retried at most twice. -/
theorem claim_C4_witness :
    (roundFailed envC4 1 ["a", "b"]).length
        = (roundFailed envC4 2 (roundFailed envC4 1 ["a", "b"])).length
    ∧ (retry_loop envC4 4 ["a", "b"] 0 (["a", "b"] : List String).length).rounds.length ≤ 2 :=
  ⟨by decide, claim_C4_no_third_round envC4 ["a", "b"] (by decide)⟩

/-! ### Drive listing cache (`_list_drive_folder_contents` lines 410-444,
`_upload_to_drive` lines 680-724, `delete_photos_from_drive` lines 254-288,
`_clear_folder_contents` lines 564-594) -/

/-- Remove a key from an association list (Python
`dict.pop(key, None)`). -/
def eraseKey (m : List (String × List String)) (k : String) :
    List (String × List String) :=
  m.filter (fun kv => kv.1 ≠ k)

/-- Update or insert a key in an association list (Python
`dict[key] = value`). -/
def setKey (m : List (String × List String)) (k : String) (v : List String) :
    List (String × List String) :=
  if (m.lookup k).isSome then
    m.map (fun kv => if kv.1 = k then (k, v) else kv)
  else (k, v) :: m

/-- The exporter state relevant to the listing cache: the
`_contents_cache` dictionary (folder id to cached name listing), the
`_new_folders` set, and the actual Drive folder contents. -/
structure CacheState where
  contents_cache : List (String × List String)
  new_folders : List String
  drive_files : List (String × List String)

/-- The current Drive listing of a folder. -/
def drive_list (st : CacheState) (folder_id : String) : List String :=
  (st.drive_files.lookup folder_id).getD []

/-- Cache effect of `_upload_to_drive` (lines 680-724): the object is
created under the parent in Drive; the function body never mentions
`_contents_cache`, so the cache is left exactly as it was. -/
def upload_to_drive (st : CacheState) (filename parent_id : String) : CacheState :=
  { st with
      drive_files := setKey st.drive_files parent_id
        (filename :: drive_list st parent_id) }

/-- Model of `delete_photos_from_drive` (lines 254-288): deletes the named files
found in the folder and pops the folder's `_contents_cache` entry
(line 287); returns the new state and the count deleted. -/
def delete_photos_from_drive (st : CacheState) (filenames : List String)
    (photos_folder_id : String) : CacheState × Nat :=
  ({ st with
      drive_files := setKey st.drive_files photos_folder_id
        ((drive_list st photos_folder_id).filter
          (fun f => !filenames.contains f)),
      contents_cache := eraseKey st.contents_cache photos_folder_id },
   ((drive_list st photos_folder_id).filter
     (fun f => filenames.contains f)).length)

/-- Model of `_clear_folder_contents` (lines 564-594), at the folder's own level:
every item is deleted and the folder's cache entry is popped (line 593);
the recursion pops each subfolder's entry in its own call, which this
one-level model leaves out. -/
def clear_folder_contents (st : CacheState) (folder_id : String) : CacheState :=
  { st with
      drive_files := setKey st.drive_files folder_id [],
      contents_cache := eraseKey st.contents_cache folder_id }

/-- Model of `_list_drive_folder_contents` (lines 410-444): serve from the cache
when allowed and present; serve newly created folders as known-empty,
seeding the cache; otherwise list from Drive, caching the result when
`use_cache` is set (a `use_cache=False` call neither reads nor writes the
cache, lines 441-442). -/
def list_drive_folder_contents (st : CacheState) (folder_id : String)
    (use_cache : Bool) : List String × CacheState :=
  if use_cache ∧ (st.contents_cache.lookup folder_id).isSome then
    ((st.contents_cache.lookup folder_id).getD [], st)
  else if st.new_folders.contains folder_id then
    ([], { st with contents_cache := setKey st.contents_cache folder_id [] })
  else if use_cache then
    (drive_list st folder_id,
     { st with
        contents_cache := setKey st.contents_cache folder_id
          (drive_list st folder_id) })
  else (drive_list st folder_id, st)

lemma lookup_eraseKey (m : List (String × List String)) (k : String) :
    (eraseKey m k).lookup k = none := by
  induction m with
  | nil => rfl
  | cons kv tl ih =>
    obtain ⟨a, b⟩ := kv
    rw [eraseKey, List.filter_cons]
    by_cases h : a = k
    · have hd : (decide ((a, b).1 ≠ k)) = false := by
        simp [h]
      rw [hd]
      simp only [Bool.false_eq_true, if_false]
      exact ih
    · have hd : (decide ((a, b).1 ≠ k)) = true := by
        simp [h]
      rw [hd, if_pos rfl, List.lookup]
      have hka : (k == a) = false := by
        simp only [beq_eq_false_iff_ne, ne_eq]
        exact fun hh => h hh.symm
      rw [hka]
      exact ih

/-- C8 counterexample: starting from a state whose listing cache holds the
folder `f` as empty, uploading `a.jpg` into `f` leaves the cache entry in
place, and a subsequent cached listing of `f` returns the empty set while
Drive actually contains the new object -- refuting `any mutation of a
container (upload, delete, clear) invalidates its listing cache entry`. -/
theorem claim_C8_counterexample :
    (upload_to_drive ⟨[("f", [])], [], [("f", [])]⟩ "a.jpg" "f").contents_cache
        = [("f", [])]
    ∧ (list_drive_folder_contents
        (upload_to_drive ⟨[("f", [])], [], [("f", [])]⟩ "a.jpg" "f") "f" true).1 = []
    ∧ drive_list (upload_to_drive ⟨[("f", [])], [], [("f", [])]⟩ "a.jpg" "f") "f"
        = ["a.jpg"]
    ∧ ¬ (upload_to_drive ⟨[("f", [])], [], [("f", [])]⟩ "a.jpg" "f").contents_cache.lookup
          "f" = none := by
  refine ⟨rfl, rfl, rfl, ?_⟩
  decide

/-- C8 (amended): deleting from a folder and clearing a folder invalidate
that folder's listing-cache entry, so a later cached listing of a non-new
folder re-reads Drive; uploading into a folder leaves the listing cache
exactly unchanged. -/
theorem claim_C8_cache_invalidation (st : CacheState) (filenames : List String)
    (folder_id filename : String) :
    ((delete_photos_from_drive st filenames folder_id).1.contents_cache.lookup
        folder_id = none)
    ∧ ((clear_folder_contents st folder_id).contents_cache.lookup folder_id = none)
    ∧ ((upload_to_drive st filename folder_id).contents_cache = st.contents_cache)
    ∧ (((delete_photos_from_drive st filenames folder_id).1.new_folders.contains
          folder_id = false) →
        (list_drive_folder_contents (delete_photos_from_drive st filenames folder_id).1
          folder_id true).1
        = drive_list (delete_photos_from_drive st filenames folder_id).1 folder_id) := by
  refine ⟨lookup_eraseKey st.contents_cache folder_id,
    lookup_eraseKey st.contents_cache folder_id, rfl, ?_⟩
  intro hnew
  have hlk : (delete_photos_from_drive st filenames folder_id).1.contents_cache.lookup
      folder_id = none :=
    lookup_eraseKey st.contents_cache folder_id
  rw [list_drive_folder_contents, if_neg (by rw [hlk]; simp),
    if_neg (by rw [hnew]; exact Bool.false_ne_true), if_pos rfl]

/-- Witness for C8 (amended) at a concrete input. -/
theorem claim_C8_witness :
    ((delete_photos_from_drive ⟨[("f", ["a.jpg"])], [], [("f", ["a.jpg"])]⟩
        ["a.jpg"] "f").1.contents_cache.lookup "f" = none)
    ∧ ((list_drive_folder_contents
          (delete_photos_from_drive ⟨[("f", ["a.jpg"])], [], [("f", ["a.jpg"])]⟩
            ["a.jpg"] "f").1 "f" true).1
        = drive_list
            (delete_photos_from_drive ⟨[("f", ["a.jpg"])], [], [("f", ["a.jpg"])]⟩
              ["a.jpg"] "f").1 "f") :=
  ⟨(claim_C8_cache_invalidation ⟨[("f", ["a.jpg"])], [], [("f", ["a.jpg"])]⟩
      ["a.jpg"] "f" "x").1,
   (claim_C8_cache_invalidation ⟨[("f", ["a.jpg"])], [], [("f", ["a.jpg"])]⟩
      ["a.jpg"] "f" "x").2.2.2 (by decide)⟩

end FulcrumExport
